import Mathlib

/-!
Verification of the BitCoin price tracker's data-acquisition layer
(`output.py`): validator, fetch, retry loop, TTL cache, and the
derivation engine (previous price, trend bucket).

Numeric payload fields are modelled as rationals; times as integers.
The decoded `bitcoin` sub-object of the API response is modelled as a
record of its four known optional fields.
-/

/-- Names of the payload fields the validator inspects. -/
inductive FieldName where
  | usd
  | usd_24h_change
deriving DecidableEq

/-- The decoded `bitcoin` sub-object of the API response: each known key
is present (`some`) or absent (`none`). -/
structure Payload where
  usd : Option ℚ
  usd_24h_change : Option ℚ
  usd_24h_vol : Option ℚ
  last_updated_at : Option ℤ
deriving DecidableEq

/-- Python dict truthiness for the modelled payload: the dict is falsy
exactly when it has no entries. -/
def Payload.isEmptyDict (d : Payload) : Bool :=
  d.usd.isNone && d.usd_24h_change.isNone && d.usd_24h_vol.isNone &&
    d.last_updated_at.isNone

/-- Which `st.error` branch of `validate_bitcoin_data` fired; `output.py`
reports the reason only through the displayed message. -/
inductive ValidationError where
  | MissingField (name : FieldName)
  | ImplausibleValue
deriving DecidableEq

/-- `validate_bitcoin_data` (output.py lines 29-42): require `usd` then
`usd_24h_change` in that order, then require `usd > 0`.  `Except.ok`
encodes `return True`; each `Except.error` encodes one `return False`
site together with its error message. -/
def validate_bitcoin_data (d : Payload) : Except ValidationError Unit :=
  match d.usd with
  | none => Except.error (ValidationError.MissingField FieldName.usd)
  | some u =>
    match d.usd_24h_change with
    | none => Except.error (ValidationError.MissingField FieldName.usd_24h_change)
    | some _ =>
      if u ≤ 0 then Except.error ValidationError.ImplausibleValue
      else Except.ok ()

/-- The JSON body of a successful HTTP response: the `bitcoin` key is
present or absent. -/
structure ApiBody where
  bitcoin : Option Payload
deriving DecidableEq

/-- Outcome of the single HTTP round trip inside `fetch_bitcoin_data`,
one constructor per exception path of output.py lines 65-82 plus the
successful decode. -/
inductive HttpOutcome where
  | Ok (body : ApiBody)
  | Timeout
  | ConnectionError
  | HttpError (status : ℕ)
  | RequestError
  | MalformedJson
deriving DecidableEq

/-- The default `{}` supplied by `data.get('bitcoin', {})`. -/
def emptyDict : Payload := ⟨none, none, none, none⟩

/-- `fetch_bitcoin_data` (output.py lines 44-82) as a function of the
transport outcome: on a decoded body, take `data.get('bitcoin', {})`,
raise (and catch, returning `None`) when it is falsy, validate, and
return the payload on success; every exception path returns `None`. -/
def fetch_bitcoin_data (r : HttpOutcome) : Option Payload :=
  match r with
  | HttpOutcome.Ok body =>
    let bitcoin_data := body.bitcoin.getD emptyDict
    if bitcoin_data.isEmptyDict then none
    else
      match validate_bitcoin_data bitcoin_data with
      | Except.ok _ => some bitcoin_data
      | Except.error _ => none
  | _ => none

/-- Python truthiness of an `Optional[dict]` result: `None` and the empty
dict are falsy. -/
def pyTruthy : Option Payload → Bool
  | none => false
  | some d => !d.isEmptyDict

/-- Observable trace of one `fetch_bitcoin_data_with_retry` invocation:
its return value, how many times the per-attempt fetch ran, and how many
`time.sleep(2)` pauses were taken. -/
structure RetryTrace where
  result : Option Payload
  calls : ℕ
  sleeps : ℕ
deriving DecidableEq

/-- The loop body of `fetch_bitcoin_data_with_retry` (output.py lines
91-98), structurally recursive on the remaining iterations of
`range(max_retries)`: fetch, return on truthy data, otherwise sleep when
`attempt < max_retries - 1` and continue; `none` after the loop.
`fetchFn i` is the outcome the i-th attempt observes. -/
def retryLoop (fetchFn : ℕ → Option Payload) (max_retries attempt remaining : ℕ) :
    RetryTrace :=
  match remaining with
  | 0 => ⟨none, 0, 0⟩
  | remaining' + 1 =>
    let data := fetchFn attempt
    if pyTruthy data then ⟨data, 1, 0⟩
    else
      let rest := retryLoop fetchFn max_retries (attempt + 1) remaining'
      ⟨rest.result, rest.calls + 1,
        rest.sleeps + (if attempt < max_retries - 1 then 1 else 0)⟩

/-- `fetch_bitcoin_data_with_retry` (output.py lines 89-98). -/
def fetch_bitcoin_data_with_retry (fetchFn : ℕ → Option Payload)
    (max_retries : ℕ) : RetryTrace :=
  retryLoop fetchFn max_retries 0 max_retries

/-- `calculate_previous_price` (output.py lines 118-121). -/
def calculate_previous_price (current_price change_percent : ℚ) : ℚ :=
  let change_amount := (current_price * change_percent) / 100
  current_price - change_amount

/-- `change_amount` as computed in `display_price_info` (output.py line
127) and inside `calculate_previous_price` (line 120). -/
def change_amount (current_price change_percent : ℚ) : ℚ :=
  (current_price * change_percent) / 100

/-- The seven trend buckets of the market-trend analysis. -/
inductive TrendBucket where
  | strongUp
  | moderateUp
  | slightUp
  | flat
  | slightDown
  | moderateDown
  | strongDown
deriving DecidableEq

/-- The trend classification of `display_price_info` (output.py lines
181-194), with branches in the source's order. -/
def trendBucket (p : ℚ) : TrendBucket :=
  if p > 5 then TrendBucket.strongUp
  else if p > 2 then TrendBucket.moderateUp
  else if p > 0 then TrendBucket.slightUp
  else if p < -5 then TrendBucket.strongDown
  else if p < -2 then TrendBucket.moderateDown
  else if p < 0 then TrendBucket.slightDown
  else TrendBucket.flat

/-- A concrete nonempty valid payload used by witnesses. -/
def samplePayload : Payload := ⟨some 50000, some 3, none, none⟩

/-- C8: with `changeAmountUsd = priceUsd * change24hPercent / 100` and
`previousPriceUsd = priceUsd - changeAmountUsd` as the code computes
them, `previousPriceUsd + changeAmountUsd = priceUsd` for every quote. -/
theorem C8_previous_plus_change_eq_price (current_price change_percent : ℚ) :
    calculate_previous_price current_price change_percent
      + change_amount current_price change_percent = current_price := by
  unfold calculate_previous_price change_amount
  ring

/-- C10: `calculate_previous_price` returns exactly
`current_price * (1 - change_percent / 100)`; hence at
`change_percent = 100` the derived previous price is `0`, and for
`change_percent > 100` it is negative even though `current_price > 0`,
so the Quote invariant `priceUsd > 0` does not carry over. -/
theorem C10_previous_price_formula (current_price change_percent : ℚ) :
    calculate_previous_price current_price change_percent
      = current_price * (1 - change_percent / 100) ∧
    calculate_previous_price current_price 100 = 0 ∧
    (100 < change_percent → 0 < current_price →
      calculate_previous_price current_price change_percent < 0) := by
  refine ⟨by unfold calculate_previous_price; ring, by unfold calculate_previous_price; ring, ?_⟩
  intro hch hcur
  have hfac : 1 - change_percent / 100 < 0 := by linarith
  have := mul_neg_of_pos_of_neg hcur hfac
  calc calculate_previous_price current_price change_percent
      = current_price * (1 - change_percent / 100) := by
        unfold calculate_previous_price; ring
    _ < 0 := this

/-- Witness for C10 at `current_price = 50000`, `change_percent = 150`. -/
theorem C10_previous_price_formula_witness :
    (100 : ℚ) < 150 ∧ (0 : ℚ) < 50000 ∧ calculate_previous_price 50000 150 < 0 :=
  ⟨by norm_num, by norm_num,
    (C10_previous_price_formula 50000 150).2.2 (by norm_num) (by norm_num)⟩

/-- C1: the trend bucket computed from `change24hPercent` `p` follows the
seven-way classification exactly: `p > 5` strong-up; `2 < p ≤ 5`
moderate-up; `0 < p ≤ 2` slight-up; `p = 0` flat; `-2 ≤ p < 0`
slight-down; `-5 ≤ p < -2` moderate-down; `p < -5` strong-down. -/
theorem C1_trend_bucket_classification (p : ℚ) :
    (5 < p → trendBucket p = TrendBucket.strongUp) ∧
    (2 < p → p ≤ 5 → trendBucket p = TrendBucket.moderateUp) ∧
    (0 < p → p ≤ 2 → trendBucket p = TrendBucket.slightUp) ∧
    (p = 0 → trendBucket p = TrendBucket.flat) ∧
    (-2 ≤ p → p < 0 → trendBucket p = TrendBucket.slightDown) ∧
    (-5 ≤ p → p < -2 → trendBucket p = TrendBucket.moderateDown) ∧
    (p < -5 → trendBucket p = TrendBucket.strongDown) := by
  unfold trendBucket
  refine ⟨?_, ?_, ?_, ?_, ?_, ?_, ?_⟩ <;> intros <;> split_ifs <;>
    first | rfl | linarith

/-- Witness for C1 at the boundary inputs `5`, `-5` and `2` named by the
claim. -/
theorem C1_trend_bucket_classification_witness :
    trendBucket 5 = TrendBucket.moderateUp ∧
    trendBucket (-5) = TrendBucket.moderateDown ∧
    trendBucket 2 = TrendBucket.slightUp :=
  ⟨(C1_trend_bucket_classification 5).2.1 (by norm_num) (by norm_num),
   (C1_trend_bucket_classification (-5)).2.2.2.2.2.1 (by norm_num) (by norm_num),
   (C1_trend_bucket_classification 2).2.2.1 (by norm_num) (by norm_num)⟩

/-- C9 counterexample: at `change24hPercent = -2.0` the code's
classification yields slight-down, not the moderate-down the claim
states (`-2 < -2` is false, so the `p < 0` branch fires). -/
theorem C9_counterexample :
    trendBucket (-2) = TrendBucket.slightDown ∧
    trendBucket (-2) ≠ TrendBucket.moderateDown := by
  constructor <;> norm_num [trendBucket] <;> decide

/-- C9 amended: at the boundary values, `change24hPercent = 5.0` is
moderate-up (not strong-up), `5.0001` is strong-up, `-2.0` is
slight-down (not moderate-down), and `0.0` is flat. -/
theorem C9_trend_boundaries :
    trendBucket 5 = TrendBucket.moderateUp ∧
    trendBucket 5 ≠ TrendBucket.strongUp ∧
    trendBucket (50001 / 10000 : ℚ) = TrendBucket.strongUp ∧
    trendBucket (-2) = TrendBucket.slightDown ∧
    trendBucket 0 = TrendBucket.flat := by
  refine ⟨?_, ?_, ?_, ?_, ?_⟩ <;> norm_num [trendBucket] <;> decide

/-- C2: a payload with both required fields present and `usd ≤ 0` is
rejected with `ImplausibleValue`; with both present and `usd > 0` it is
accepted, and `fetch_bitcoin_data` then returns it as the quote. -/
theorem C2_validator_usd_sign (d : Payload) (u : ℚ) (hu : d.usd = some u)
    (hc : d.usd_24h_change.isSome = true) :
    (u ≤ 0 → validate_bitcoin_data d
        = Except.error ValidationError.ImplausibleValue) ∧
    (0 < u → validate_bitcoin_data d = Except.ok () ∧
      fetch_bitcoin_data (HttpOutcome.Ok ⟨some d⟩) = some d) := by
  obtain ⟨c, hc'⟩ := Option.isSome_iff_exists.mp hc
  constructor
  · intro hle
    simp [validate_bitcoin_data, hu, hc', hle]
  · intro hpos
    have hval : validate_bitcoin_data d = Except.ok () := by
      simp [validate_bitcoin_data, hu, hc', not_le.mpr hpos]
    refine ⟨hval, ?_⟩
    simp [fetch_bitcoin_data, Payload.isEmptyDict, hu, hval]

/-- Witness for C2: a payload with `usd = -1` is rejected as implausible
and one with `usd = 50000` is accepted. -/
theorem C2_validator_usd_sign_witness :
    validate_bitcoin_data ⟨some (-1), some 2, none, none⟩
      = Except.error ValidationError.ImplausibleValue ∧
    validate_bitcoin_data ⟨some 50000, some 2, none, none⟩ = Except.ok () :=
  ⟨(C2_validator_usd_sign ⟨some (-1), some 2, none, none⟩ (-1) rfl rfl).1
      (by norm_num),
   ((C2_validator_usd_sign ⟨some 50000, some 2, none, none⟩ 50000 rfl rfl).2
      (by norm_num)).1⟩

/-- Helper: starting at `attempt` with enough iterations left, if the
first truthy fetch result is the one at offset `k` (every earlier
attempt is falsy), the loop returns it after `k + 1` calls and `k`
sleeps. -/
theorem retryLoop_first_success (fetchFn : ℕ → Option Payload)
    (max_retries : ℕ) :
    ∀ (k attempt remaining : ℕ), k < remaining → attempt + k < max_retries →
      pyTruthy (fetchFn (attempt + k)) = true →
      (∀ i, i < k → pyTruthy (fetchFn (attempt + i)) = false) →
      retryLoop fetchFn max_retries attempt remaining
        = ⟨fetchFn (attempt + k), k + 1, k⟩ := by
  intro k
  induction k with
  | zero =>
    intro attempt remaining hk _ htrue _
    obtain ⟨r, rfl⟩ : ∃ r, remaining = r + 1 := ⟨remaining - 1, by omega⟩
    simp only [Nat.add_zero] at htrue
    simp [retryLoop, htrue]
  | succ k ih =>
    intro attempt remaining hk hmax htrue hfail
    obtain ⟨r, rfl⟩ : ∃ r, remaining = r + 1 := ⟨remaining - 1, by omega⟩
    have hf0 : pyTruthy (fetchFn attempt) = false := by
      have := hfail 0 (Nat.succ_pos k)
      simpa using this
    have hrec := ih (attempt + 1) r (by omega) (by omega)
      (by rw [show attempt + 1 + k = attempt + (k + 1) by omega]; exact htrue)
      (fun i hi => by
        rw [show attempt + 1 + i = attempt + (i + 1) by omega]
        exact hfail (i + 1) (by omega))
    have hsleep : attempt < max_retries - 1 := by omega
    simp [retryLoop, hf0, hrec, hsleep,
      show attempt + 1 + k = attempt + (k + 1) by omega]

/-- C3: a fetch that fails on all three attempts makes
`fetch_bitcoin_data_with_retry` invoke it exactly 3 times, return the
(`None`) failure observed on the 3rd attempt, and sleep exactly twice —
only between a failed attempt and the next one, never after the last;
a fetch whose first success is attempt `k` makes the controller return
that success after exactly `k + 1` calls and `k` sleeps. -/
theorem C3_retry_behavior (fetchFn : ℕ → Option Payload) :
    ((∀ i, i < 3 → fetchFn i = none) →
      fetch_bitcoin_data_with_retry fetchFn 3 = ⟨fetchFn 2, 3, 2⟩) ∧
    (∀ max_retries k, k < max_retries → pyTruthy (fetchFn k) = true →
      (∀ i, i < k → pyTruthy (fetchFn i) = false) →
      fetch_bitcoin_data_with_retry fetchFn max_retries
        = ⟨fetchFn k, k + 1, k⟩) := by
  constructor
  · intro h
    have h0 := h 0 (by omega)
    have h1 := h 1 (by omega)
    have h2 := h 2 (by omega)
    simp [fetch_bitcoin_data_with_retry, retryLoop, h0, h1, h2, pyTruthy]
  · intro max_retries k hk htrue hfail
    have := retryLoop_first_success fetchFn max_retries k 0 max_retries hk
      (by omega) (by simpa using htrue) (fun i hi => by simpa using hfail i hi)
    simpa [fetch_bitcoin_data_with_retry] using this

/-- Witness for C3: an always-failing fetch runs 3 times with 2 sleeps
and returns `none`; a fetch that first succeeds on attempt index 2
(scenario B) returns that payload after 3 calls and 2 sleeps. -/
theorem C3_retry_behavior_witness :
    fetch_bitcoin_data_with_retry (fun _ => none) 3
      = ⟨none, 3, 2⟩ ∧
    fetch_bitcoin_data_with_retry
        (fun i => if i < 2 then none else some ⟨some 61000, some (-3/2), none, none⟩) 3
      = ⟨some ⟨some 61000, some (-3/2), none, none⟩, 3, 2⟩ :=
  ⟨(C3_retry_behavior (fun _ => none)).1 (fun i _ => rfl),
   (C3_retry_behavior
      (fun i => if i < 2 then none else some ⟨some 61000, some (-3/2), none, none⟩)).2
     3 2 (by omega) (by rfl)
     (fun i hi => by interval_cases i <;> rfl)⟩

/-- C4 counterexample: a timed-out fetch returns the untyped absent
value `None` — identical to what a connection error returns — so the
error kind is not preserved in the value handed to the caller. -/
theorem C4_counterexample :
    fetch_bitcoin_data HttpOutcome.Timeout = none ∧
    fetch_bitcoin_data HttpOutcome.ConnectionError = none ∧
    fetch_bitcoin_data HttpOutcome.Timeout
      = fetch_bitcoin_data HttpOutcome.ConnectionError :=
  ⟨rfl, rfl, rfl⟩

/-- C4 amended: every failing fetch path (timeout, connection error,
HTTP error, other request error, malformed payload, missing or empty
asset object, failed validation) returns `None`; the error kind is
reported only through a displayed message, not in the returned value;
and no failure ever yields an empty or default payload — any `some`
result is a nonempty payload that passed validation. -/
theorem C4_failure_paths (r : HttpOutcome) :
    ((∀ body, r ≠ HttpOutcome.Ok body) → fetch_bitcoin_data r = none) ∧
    (∀ body d, r = HttpOutcome.Ok body → body.bitcoin = some d →
      (∃ e, validate_bitcoin_data d = Except.error e) →
      fetch_bitcoin_data r = none) ∧
    (∀ d, fetch_bitcoin_data r = some d →
      d.isEmptyDict = false ∧ validate_bitcoin_data d = Except.ok ()) := by
  refine ⟨?_, ?_, ?_⟩
  · intro hne
    cases r with
    | Ok body => exact absurd rfl (hne body)
    | _ => rfl
  · rintro body d rfl hb ⟨e, he⟩
    by_cases hemp : d.isEmptyDict
    · simp [fetch_bitcoin_data, hb, hemp]
    · simp [fetch_bitcoin_data, hb, hemp, he]
  · intro d hd
    cases r with
    | Ok body =>
      cases hbit : body.bitcoin with
      | none =>
        simp [fetch_bitcoin_data, hbit, emptyDict, Payload.isEmptyDict] at hd
      | some d0 =>
        by_cases hemp : d0.isEmptyDict
        · simp [fetch_bitcoin_data, hbit, hemp] at hd
        · cases hval : validate_bitcoin_data d0 with
          | ok u =>
            simp [fetch_bitcoin_data, hbit, hemp, hval] at hd
            subst hd
            simpa [hemp] using hval
          | error e =>
            simp [fetch_bitcoin_data, hbit, hemp, hval] at hd
    | Timeout => simp [fetch_bitcoin_data] at hd
    | ConnectionError => simp [fetch_bitcoin_data] at hd
    | HttpError c => simp [fetch_bitcoin_data] at hd
    | RequestError => simp [fetch_bitcoin_data] at hd
    | MalformedJson => simp [fetch_bitcoin_data] at hd

/-- Witness for C4 amended: an HTTP 500 outcome returns `None`, and a
body whose payload lacks `usd_24h_change` also returns `None`. -/
theorem C4_failure_paths_witness :
    fetch_bitcoin_data (HttpOutcome.HttpError 500) = none ∧
    fetch_bitcoin_data (HttpOutcome.Ok ⟨some ⟨some 61000, none, none, none⟩⟩)
      = none :=
  ⟨(C4_failure_paths (HttpOutcome.HttpError 500)).1
      (fun _ h => HttpOutcome.noConfusion h),
   (C4_failure_paths (HttpOutcome.Ok ⟨some ⟨some 61000, none, none, none⟩⟩)).2.1
      ⟨some ⟨some 61000, none, none, none⟩⟩ ⟨some 61000, none, none, none⟩
      rfl rfl ⟨ValidationError.MissingField FieldName.usd_24h_change, rfl⟩⟩

/-- A cached quote together with the instant it was fetched. -/
structure CachedQuote where
  quote : Payload
  fetchedAt : ℤ
deriving DecidableEq

/-- Observable outcome of one cached-path call: the value returned, the
cache entry afterwards, and whether the upstream fetch ran. -/
structure CacheStep where
  result : Option Payload
  state : Option CachedQuote
  upstreamCalled : Bool
deriving DecidableEq

/-- Modelled from the spec: the source delegates caching to the external
`st.cache_data(ttl=30)` decorator (output.py line 84), whose
implementation is not part of this repository.  Spec section 4.3
`getOrFetch`: when a cached entry exists and `now - fetchedAt < ttl`,
return its quote without invoking the fetch; otherwise run the fetch,
on success replace the entry with the new quote and `fetchedAt = now`,
on failure leave the existing entry untouched and propagate the
failure; a missing entry and an expired entry behave identically. -/
def getOrFetch (cache : Option CachedQuote) (now ttl : ℤ)
    (fetchResult : Option Payload) : CacheStep :=
  match cache with
  | some cq =>
    if now - cq.fetchedAt < ttl then ⟨some cq.quote, some cq, false⟩
    else
      match fetchResult with
      | some q => ⟨some q, some ⟨q, now⟩, true⟩
      | none => ⟨none, some cq, true⟩
  | none =>
    match fetchResult with
    | some q => ⟨some q, some ⟨q, now⟩, true⟩
    | none => ⟨none, none, true⟩

/-- The two data-acquisition paths of `main` (output.py lines 277-282):
`retry_mode` set runs `fetch_bitcoin_data_with_retry`, otherwise the
cached path runs. -/
inductive FetchMode where
  | Cached
  | ForceRetry
deriving DecidableEq

/-- Observable outcome of one acquisition step: value returned, cache
entry afterwards, and how many upstream fetches ran. -/
structure AcquireStep where
  result : Option Payload
  state : Option CachedQuote
  upstreamCalls : ℕ
deriving DecidableEq

/-- The acquisition dispatch of `main` (output.py lines 277-282): the
cached path goes through `getOrFetch`; the retry path calls
`fetch_bitcoin_data_with_retry` directly and never touches the cache
(lines 89-98 contain no cache access), so the cache entry is returned
unchanged. -/
def acquire (mode : FetchMode) (cache : Option CachedQuote) (now ttl : ℤ)
    (fetchFn : ℕ → Option Payload) : AcquireStep :=
  match mode with
  | FetchMode.Cached =>
    let s := getOrFetch cache now ttl (fetchFn 0)
    ⟨s.result, s.state, if s.upstreamCalled then 1 else 0⟩
  | FetchMode.ForceRetry =>
    let t := fetch_bitcoin_data_with_retry fetchFn 3
    ⟨t.result, cache, t.calls⟩

/-- C5: after a successful fetch at `t1`, a second cached-path call at
`t2` with `t2 - t1 < ttl` returns the identical quote without invoking
the upstream fetch, so exactly one upstream call occurs for the pair. -/
theorem C5_cache_fresh_hit (t1 t2 ttl : ℤ) (q : Payload)
    (f2 : Option Payload) (hfresh : t2 - t1 < ttl) :
    (getOrFetch none t1 ttl (some q)).result = some q ∧
    (getOrFetch none t1 ttl (some q)).upstreamCalled = true ∧
    (getOrFetch (getOrFetch none t1 ttl (some q)).state t2 ttl f2).result
      = some q ∧
    (getOrFetch (getOrFetch none t1 ttl (some q)).state t2 ttl f2).upstreamCalled
      = false := by
  refine ⟨rfl, rfl, ?_, ?_⟩ <;> simp [getOrFetch, hfresh]

/-- Witness for C5: a fetch at time 0 followed by a cached call at time
10 with TTL 30 serves the same quote with no second upstream call. -/
theorem C5_cache_fresh_hit_witness :
    (getOrFetch (getOrFetch none 0 30 (some samplePayload)).state 10 30 none).result
      = some samplePayload ∧
    (getOrFetch (getOrFetch none 0 30 (some samplePayload)).state 10 30 none).upstreamCalled
      = false :=
  ⟨(C5_cache_fresh_hit 0 10 30 samplePayload none (by norm_num)).2.2.1,
   (C5_cache_fresh_hit 0 10 30 samplePayload none (by norm_num)).2.2.2⟩

/-- C6: a payload whose `usd_24h_change` is missing fails validation
with `MissingField usd_24h_change`, the fetch returns `None`, the cache
entry after the failed refresh is exactly the prior entry, and a still
fresh prior entry keeps being served until its own TTL expiry. -/
theorem C6_failed_fetch_preserves_cache (c : Option CachedQuote)
    (now later ttl : ℤ) (body : ApiBody) (d : Payload)
    (hb : body.bitcoin = some d) (husd : d.usd.isSome = true)
    (hmiss : d.usd_24h_change = none) :
    validate_bitcoin_data d
      = Except.error (ValidationError.MissingField FieldName.usd_24h_change) ∧
    fetch_bitcoin_data (HttpOutcome.Ok body) = none ∧
    (getOrFetch c now ttl (fetch_bitcoin_data (HttpOutcome.Ok body))).state = c ∧
    (∀ cq, c = some cq → later - cq.fetchedAt < ttl →
      (getOrFetch
          (getOrFetch c now ttl (fetch_bitcoin_data (HttpOutcome.Ok body))).state
          later ttl none).result = some cq.quote) := by
  obtain ⟨u, hu⟩ := Option.isSome_iff_exists.mp husd
  have hval : validate_bitcoin_data d
      = Except.error (ValidationError.MissingField FieldName.usd_24h_change) := by
    simp [validate_bitcoin_data, hu, hmiss]
  have hfetch : fetch_bitcoin_data (HttpOutcome.Ok body) = none := by
    simp [fetch_bitcoin_data, hb, Payload.isEmptyDict, hu, hval]
  have hstate :
      (getOrFetch c now ttl (fetch_bitcoin_data (HttpOutcome.Ok body))).state = c := by
    rw [hfetch]
    cases c with
    | none => rfl
    | some cq => by_cases hf : now - cq.fetchedAt < ttl <;> simp [getOrFetch, hf]
  refine ⟨hval, hfetch, hstate, ?_⟩
  rintro cq rfl hfr
  rw [hstate]
  simp [getOrFetch, hfr]

/-- Witness for C6: with a prior entry fetched at time 0 and TTL 30, a
refresh at time 40 that returns a payload missing `usd_24h_change`
leaves the entry in place, and a call at time 20 still serves it. -/
theorem C6_failed_fetch_preserves_cache_witness :
    (getOrFetch (some ⟨samplePayload, 0⟩) 40 30
        (fetch_bitcoin_data
          (HttpOutcome.Ok ⟨some ⟨some 61000, none, none, none⟩⟩))).state
      = some ⟨samplePayload, 0⟩ ∧
    (getOrFetch
        (getOrFetch (some ⟨samplePayload, 0⟩) 40 30
          (fetch_bitcoin_data
            (HttpOutcome.Ok ⟨some ⟨some 61000, none, none, none⟩⟩))).state
        20 30 none).result = some samplePayload :=
  ⟨(C6_failed_fetch_preserves_cache (some ⟨samplePayload, 0⟩) 40 20 30
      ⟨some ⟨some 61000, none, none, none⟩⟩ ⟨some 61000, none, none, none⟩
      rfl rfl rfl).2.2.1,
   (C6_failed_fetch_preserves_cache (some ⟨samplePayload, 0⟩) 40 20 30
      ⟨some ⟨some 61000, none, none, none⟩⟩ ⟨some 61000, none, none, none⟩
      rfl rfl rfl).2.2.2 ⟨samplePayload, 0⟩ rfl (by norm_num)⟩

/-- C7 counterexample: a retry invocation on an empty cache succeeds on
its first attempt, yet the cache entry afterwards is still empty, so a
subsequent cached-path call 10 seconds later (well within the 30-second
TTL) performs a new upstream call instead of serving the retry's quote
from cache. -/
theorem C7_counterexample :
    (acquire FetchMode.ForceRetry none 0 30 (fun _ => some samplePayload)).result
      = some samplePayload ∧
    (acquire FetchMode.ForceRetry none 0 30 (fun _ => some samplePayload)).state
      = none ∧
    (acquire FetchMode.Cached
        (acquire FetchMode.ForceRetry none 0 30
          (fun _ => some samplePayload)).state
        10 30 (fun _ => some samplePayload)).upstreamCalls = 1 :=
  ⟨rfl, rfl, rfl⟩

/-- C7 amended: the retry path does bypass the cache's TTL check — it
always performs at least one upstream fetch, regardless of the cache
state — but its result is never written into the cache: the cache entry
after a retry invocation is exactly the entry before it, so a
subsequent cached-path call behaves as if the retry had not happened. -/
theorem C7_retry_bypasses_and_skips_cache (cache : Option CachedQuote)
    (now ttl : ℤ) (fetchFn : ℕ → Option Payload) :
    (acquire FetchMode.ForceRetry cache now ttl fetchFn).state = cache ∧
    1 ≤ (acquire FetchMode.ForceRetry cache now ttl fetchFn).upstreamCalls := by
  refine ⟨rfl, ?_⟩
  show 1 ≤ (fetch_bitcoin_data_with_retry fetchFn 3).calls
  unfold fetch_bitcoin_data_with_retry
  cases h : pyTruthy (fetchFn 0) <;> simp [retryLoop, h]
